import Mathlib

/-!
# Hot backup manager (`backup_manager.cc`)

A shallow embedding of the backup manager: its own fields are an explicit
state record, the Descriptor Table it owns is a list of slots, and every call
it makes on a collaborator (callbacks, the session mutex, the Directory Mapping
`m_dir`, descriptor records, the real system calls) is recorded, in program
order, in the list of calls an entry point returns.  What a collaborator
answers is supplied by a `World`, so every theorem holds for any behaviour of
the collaborators.

Descriptors are `Nat` (the table is indexed from 0), `int`, `ssize_t` and
`off_t` results are `Int`, `size_t` and `unsigned long` values are `Nat`.
-/

namespace HotBackup

/-- Value of `EBUSY` in `<errno.h>` (Linux). -/
def EBUSY : Int := 16

/-- Value of `ULONG_MAX` in `<limits.h>` (LP64). -/
def ULONG_MAX : Nat := 2 ^ 64 - 1

/-- Bytes handed to `write`/`pwrite`. -/
abbrev Buf := List Nat

/-- Modelled from the spec: the Descriptor Record (class `file_description`,
declared outside this file).  Only the two paths the manager sets on it are
state here; its backup-side file is reached through method calls, which are
recorded as `Call`s and answered by the `World`. -/
structure file_description where
  m_full_source_name : String
  m_backup_name : Option String
deriving DecidableEq, Repr

/-- Modelled from the spec: the record a `put` installs, with no path yet. -/
def file_description.fresh : file_description :=
  { m_full_source_name := "", m_backup_name := none }

/-- Modelled from the spec: `set_full_source_name(name)` stores the source path. -/
def file_description.set_full_source_name (f : file_description) (name : String) :
    file_description :=
  { f with m_full_source_name := name }

/-- Modelled from the spec: `get_full_source_name()` reads the source path. -/
def file_description.get_full_source_name (f : file_description) : String :=
  f.m_full_source_name

/-- Modelled from the spec: `prepare_for_backup(name)` stores the translated
(backup-side) path. -/
def file_description.prepare_for_backup (f : file_description) (name : String) :
    file_description :=
  { f with m_backup_name := some name }

/-- Modelled from the spec: the Descriptor Table (class `fmap`, declared
outside this file): a dense, descriptor-indexed array whose empty slots are
null. -/
structure fmap where
  slots : List (Option file_description)
deriving DecidableEq, Repr

/-- Modelled from the spec: `size()` is the number of slots. -/
def fmap.size (t : fmap) : Nat := t.slots.length

/-- Modelled from the spec: `get(fd)` is the record in slot `fd`, or null. -/
def fmap.get (t : fmap) (fd : Nat) : Option file_description :=
  (t.slots.get? fd).join

/-- Modelled from the spec: `put(fd)` grows the array to hold slot `fd` and
installs a new record there, replacing any prior record of that slot. -/
def fmap.put (t : fmap) (fd : Nat) : fmap :=
  { slots := (t.slots ++ List.replicate (fd + 1 - t.slots.length) none).set fd
      (some file_description.fresh) }

/-- Modelled from the spec: `erase(fd)` removes the record of slot `fd`, if any. -/
def fmap.erase (t : fmap) (fd : Nat) : fmap :=
  { slots := t.slots.set fd none }

/-- A method that mutates the record in slot `fd` through its pointer. -/
def fmap.store (t : fmap) (fd : Nat) (f : file_description) : fmap :=
  { slots := t.slots.set fd (some f) }

/-- The fields of `backup_manager` (`m_dir` is a collaborator, reached only
through calls; `m_mutex` is true while the session mutex is locked). -/
structure backup_manager where
  m_doing_backup : Bool
  m_doing_copy : Bool
  m_capture_error : Int
  m_throttle : Nat
  m_mutex : Bool
  m_map : fmap
deriving DecidableEq, Repr

/-- The calls the manager makes on its collaborators.  A call on a descriptor
record names the slot the record pointer was read from. -/
inductive Call where
  | poll_fun (code : Int) (msg : String)
  | error_fun (code : Int) (msg : String)
  | pthread_mutex_trylock
  | pthread_mutex_unlock
  | map_size
  | map_get (fd : Nat)
  | map_put (fd : Nat)
  | map_erase (fd : Nat)
  | set_full_source_name (fd : Nat) (name : String)
  | get_full_source_name (fd : Nat)
  | prepare_for_backup (fd : Nat) (name : String)
  | file_create (fd : Nat)
  | file_open (fd : Nat)
  | file_lock (fd : Nat)
  | file_unlock (fd : Nat)
  | file_write (fd : Nat) (r : Int) (buf : Buf)
  | file_read (fd : Nat) (r : Int)
  | file_pwrite (fd : Nat) (buf : Buf) (nbyte : Nat) (offset : Int)
  | file_lseek (fd : Nat) (new_offset : Int)
  | file_truncate (fd : Nat) (length : Int)
  | directories_set
  | is_prefix (path : String)
  | translate_prefix (path : String)
  | open_path (path : String)
  | do_copy
  | set_directories (source_dir dest_dir : String)
  | call_real_write (fd : Nat) (buf : Buf) (nbyte : Nat)
  | call_real_read (fd : Nat) (buf : Buf) (nbyte : Nat)
  | call_real_lseek (fd : Nat) (nbyte : Nat) (whence : Int)
deriving DecidableEq, Repr

/-- What the collaborators answer.  None of these functions is defined in
`backup_manager.cc`; each is a parameter. -/
structure World where
  poll_fun : Int → String → Int
  pthread_mutex_trylock : Int
  pthread_mutex_unlock : Int
  directories_set : Bool
  is_prefix : String → Bool
  translate_prefix : String → String
  open_path : String → Int
  do_copy : Int
  set_directories : String → String → Int
  file_create : Nat → Int
  file_open : Nat → Int
  file_write : Nat → Int → Buf → Int
  file_read : Nat → Int → Int
  file_pwrite : Nat → Buf → Nat → Int → Int
  file_truncate : Nat → Int → Int
  call_real_write : Nat → Buf → Nat → Int
  call_real_read : Nat → Buf → Nat → Int
  call_real_lseek : Nat → Nat → Int → Int

/-- What an entry point leaves behind: its return value, the manager's fields
afterwards, and the calls it made on collaborators, oldest first. -/
structure Outcome (α : Type) where
  ret : α
  mgr : backup_manager
  calls : List Call

/-- The constructor `backup_manager::backup_manager()`; `pthread_mutex_init`
leaves the mutex unlocked. -/
def backup_manager.new : backup_manager :=
  { m_doing_backup := false
    m_doing_copy := true
    m_capture_error := 0
    m_throttle := ULONG_MAX
    m_mutex := false
    m_map := { slots := [] } }

/-- One iteration of the preparation loop of `do_backup` (lines 82-104), for
index `i`: the loop test, `m_map.get(i)`, and the body.  The results of
`open_path` and `create` are stored in a local `r` and not used. -/
def prepare_one (w : World) (acc : backup_manager × List Call) (i : Nat) :
    backup_manager × List Call :=
  let t := acc.2 ++ [Call.map_size, Call.map_get i]
  match acc.1.m_map.get i with
  | none => (acc.1, t)
  | some file =>
    let source_path := file.get_full_source_name
    let t := t ++ [Call.get_full_source_name i, Call.is_prefix source_path]
    if ! w.is_prefix source_path then (acc.1, t)
    else
      let file_name := w.translate_prefix source_path
      let m := { acc.1 with m_map := acc.1.m_map.store i (file.prepare_for_backup file_name) }
      let _r := w.open_path file_name
      let _r := w.file_create i
      (m, t ++ [Call.translate_prefix source_path, Call.prepare_for_backup i file_name,
                Call.open_path file_name, Call.file_create i])

/-- The preparation loop of `do_backup`: indices `0 .. m_map.size() - 1` in
order, then the loop test that ends it.  The body never changes the number of
slots (`prepare_one_size`), so the bound is the size on entry. -/
def prepare_loop (w : World) (m : backup_manager) : backup_manager × List Call :=
  let acc := (List.range m.m_map.size).foldl (prepare_one w) (m, [])
  (acc.1, acc.2 ++ [Call.map_size])

/-- The label `unlock_out` of `do_backup` (lines 116-124), entered with the
current value `r`. -/
def unlock_out (w : World) (r : Int) (m : backup_manager) (t : List Call) : Outcome Int :=
  let pthread_error := w.pthread_mutex_unlock
  let t := t ++ [Call.pthread_mutex_unlock]
  if pthread_error ≠ 0 then
    let t := t ++ [Call.error_fun pthread_error
      "pthread_mutex_unlock failed.  Backup system is probably broken"]
    { ret := if r ≠ 0 then pthread_error else r, mgr := m, calls := t }
  else
    { ret := r, mgr := { m with m_mutex := false }, calls := t }

/-- The method `backup_manager::do_backup` (lines 59-128). -/
def do_backup (w : World) (m : backup_manager) : Outcome Int :=
  let r := w.poll_fun 0 "Preparing backup"
  let t := [Call.poll_fun 0 "Preparing backup"]
  if r ≠ 0 then
    { ret := r, mgr := m, calls := t ++ [Call.error_fun r "User aborted backup"] }
  else
    let r := w.pthread_mutex_trylock
    let t := t ++ [Call.pthread_mutex_trylock]
    if r ≠ 0 then
      if r = EBUSY then
        { ret := r, mgr := m, calls := t ++ [Call.error_fun r "Another backup is in progress."] }
      else
        { ret := r, mgr := m, calls := t }
    else
      let m := { m with m_mutex := true }
      let p := prepare_loop w m
      let r := w.do_copy
      let t := t ++ p.2 ++ [Call.do_copy]
      unlock_out w r p.1 t

/-- The method `backup_manager::add_directory` (lines 142-153); the two
asserts hold for every `String`. -/
def add_directory (w : World) (m : backup_manager) (source_dir dest_dir : String) :
    Outcome Int :=
  { ret := w.set_directories source_dir dest_dir, mgr := m,
    calls := [Call.set_directories source_dir dest_dir] }

/-- The method `backup_manager::get_directory(const char *)` (lines 470-484):
true when it returns `&m_dir`, false when it returns NULL, with its calls. -/
def get_directory (w : World) (file : String) : Bool × List Call :=
  if ! w.directories_set then (false, [Call.directories_set])
  else if ! w.is_prefix file then (false, [Call.directories_set, Call.is_prefix file])
  else (true, [Call.directories_set, Call.is_prefix file])

/-- The first three statements of `create` and `open`: `m_map.put(fd)`,
`m_map.get(fd)` and `set_full_source_name(file)` on the record returned (never
null after the `put`, see `fmap.get_put`). -/
def insert_record (m : backup_manager) (fd : Nat) (file : String) :
    backup_manager × List Call :=
  let map := m.m_map.put fd
  let map := match map.get fd with
    | some description => map.store fd (description.set_full_source_name file)
    | none => map
  ({ m with m_map := map },
   [Call.map_put fd, Call.map_get fd, Call.set_full_source_name fd file])

/-- The statement `description->prepare_for_backup(name)` on the record of
slot `fd`. -/
def prepare_record (m : backup_manager) (fd : Nat) (name : String) : backup_manager :=
  match m.m_map.get fd with
  | some description => { m with m_map := m.m_map.store fd (description.prepare_for_backup name) }
  | none => m

/-- The method `backup_manager::create` (lines 165-194). -/
def create (w : World) (m : backup_manager) (fd : Nat) (file : String) : Outcome Unit :=
  let s := insert_record m fd file
  let directory := get_directory w file
  let t := s.2 ++ directory.2
  if ! directory.1 then { ret := (), mgr := s.1, calls := t }
  else if ! s.1.m_doing_backup then { ret := (), mgr := s.1, calls := t }
  else
    let backup_file_name := w.translate_prefix file
    let _r := w.open_path backup_file_name
    let m := prepare_record s.1 fd backup_file_name
    let _r := w.file_create fd
    { ret := (), mgr := m,
      calls := t ++ [Call.translate_prefix file, Call.open_path backup_file_name,
                     Call.prepare_for_backup fd backup_file_name, Call.file_create fd] }

/-- The method `backup_manager::open` (lines 209-240); the final `oflag++`
changes a local only. -/
def «open» (w : World) (m : backup_manager) (fd : Nat) (file : String) (_oflag : Int) :
    Outcome Unit :=
  let s := insert_record m fd file
  let directory := get_directory w file
  let t := s.2 ++ directory.2
  if ! directory.1 then { ret := (), mgr := s.1, calls := t }
  else if ! s.1.m_doing_backup then { ret := (), mgr := s.1, calls := t }
  else
    let backup_file_name := w.translate_prefix file
    let _r := w.open_path backup_file_name
    let m := prepare_record s.1 fd backup_file_name
    let _r := w.file_open fd
    { ret := (), mgr := m,
      calls := t ++ [Call.translate_prefix file, Call.open_path backup_file_name,
                     Call.prepare_for_backup fd backup_file_name, Call.file_open fd] }

/-- The method `backup_manager::close` (lines 251-255). -/
def close (m : backup_manager) (fd : Nat) : Outcome Unit :=
  { ret := (), mgr := { m with m_map := m.m_map.erase fd }, calls := [Call.map_erase fd] }

/-- The method `backup_manager::write` (lines 268-284). -/
def write (w : World) (m : backup_manager) (fd : Nat) (buf : Buf) (nbyte : Nat) :
    Outcome Int :=
  match m.m_map.get fd with
  | none =>
    let r := w.call_real_write fd buf nbyte
    { ret := r, mgr := m, calls := [Call.map_get fd, Call.call_real_write fd buf nbyte] }
  | some _description =>
    let r := w.call_real_write fd buf nbyte
    let _ := w.file_write fd r buf
    { ret := r, mgr := m,
      calls := [Call.map_get fd, Call.file_lock fd, Call.call_real_write fd buf nbyte,
                Call.file_write fd r buf, Call.file_unlock fd] }

/-- The method `backup_manager::read` (lines 295-310). -/
def read (w : World) (m : backup_manager) (fd : Nat) (buf : Buf) (nbyte : Nat) :
    Outcome Int :=
  match m.m_map.get fd with
  | none =>
    let r := w.call_real_read fd buf nbyte
    { ret := r, mgr := m, calls := [Call.map_get fd, Call.call_real_read fd buf nbyte] }
  | some _description =>
    let r := w.call_real_read fd buf nbyte
    let _ := w.file_read fd r
    { ret := r, mgr := m,
      calls := [Call.map_get fd, Call.file_lock fd, Call.call_real_read fd buf nbyte,
                Call.file_read fd r, Call.file_unlock fd] }

/-- The method `backup_manager::pwrite` (lines 321-335). -/
def pwrite (w : World) (m : backup_manager) (fd : Nat) (buf : Buf) (nbyte : Nat)
    (offset : Int) : Outcome Unit :=
  match m.m_map.get fd with
  | none => { ret := (), mgr := m, calls := [Call.map_get fd] }
  | some _description =>
    let _r := w.file_pwrite fd buf nbyte offset
    { ret := (), mgr := m, calls := [Call.map_get fd, Call.file_pwrite fd buf nbyte offset] }

/-- The method `backup_manager::lseek` (lines 347-360). -/
def lseek (w : World) (m : backup_manager) (fd : Nat) (nbyte : Nat) (whence : Int) :
    Outcome Int :=
  match m.m_map.get fd with
  | none =>
    { ret := w.call_real_lseek fd nbyte whence, mgr := m,
      calls := [Call.map_get fd, Call.call_real_lseek fd nbyte whence] }
  | some _description =>
    let new_offset := w.call_real_lseek fd nbyte whence
    { ret := new_offset, mgr := m,
      calls := [Call.map_get fd, Call.file_lock fd, Call.call_real_lseek fd nbyte whence,
                Call.file_lseek fd new_offset, Call.file_unlock fd] }

/-- The method `backup_manager::rename` (lines 371-379): the body only
advances its two local pointers. -/
def rename (m : backup_manager) (_oldpath _newpath : String) : Outcome Unit :=
  { ret := (), mgr := m, calls := [] }

/-- The method `backup_manager::ftruncate` (lines 389-401). -/
def ftruncate (w : World) (m : backup_manager) (fd : Nat) (length : Int) : Outcome Unit :=
  match m.m_map.get fd with
  | some _description =>
    let _r := w.file_truncate fd length
    { ret := (), mgr := m, calls := [Call.map_get fd, Call.file_truncate fd length] }
  | none => { ret := (), mgr := m, calls := [Call.map_get fd] }

/-- The method `backup_manager::truncate` (lines 411-420): the body only
increments its local `length`. -/
def truncate (m : backup_manager) (_path : String) (_length : Int) : Outcome Unit :=
  { ret := (), mgr := m, calls := [] }

/-- The method `backup_manager::mkdir` (lines 430-443). -/
def mkdir (w : World) (m : backup_manager) (pathname : String) : Outcome Unit :=
  let directory := get_directory w pathname
  if ! directory.1 then { ret := (), mgr := m, calls := directory.2 }
  else
    let backup_directory_name := w.translate_prefix pathname
    let _r := w.open_path backup_directory_name
    { ret := (), mgr := m,
      calls := directory.2 ++ [Call.translate_prefix pathname,
                               Call.open_path backup_directory_name] }

/-- The method `backup_manager::set_throttle` (lines 486-488): the atomic store. -/
def set_throttle (m : backup_manager) (bytes_per_second : Nat) : Outcome Unit :=
  { ret := (), mgr := { m with m_throttle := bytes_per_second }, calls := [] }

/-- The method `backup_manager::get_throttle` (lines 490-494): the atomic load. -/
def get_throttle (m : backup_manager) : Outcome Nat :=
  { ret := m.m_throttle, mgr := m, calls := [] }

/-! ## Sequences of manager operations -/

/-- The manager operations other than `set_throttle`, with their arguments. -/
inductive Op where
  | do_backup
  | add_directory (source_dir dest_dir : String)
  | create (fd : Nat) (file : String)
  | «open» (fd : Nat) (file : String) (oflag : Int)
  | close (fd : Nat)
  | write (fd : Nat) (buf : Buf) (nbyte : Nat)
  | read (fd : Nat) (buf : Buf) (nbyte : Nat)
  | pwrite (fd : Nat) (buf : Buf) (nbyte : Nat) (offset : Int)
  | lseek (fd : Nat) (nbyte : Nat) (whence : Int)
  | rename (oldpath newpath : String)
  | ftruncate (fd : Nat) (length : Int)
  | truncate (path : String) (length : Int)
  | mkdir (pathname : String)
  | get_throttle

/-- The manager after one operation, run against the environment `w`. -/
def step (w : World) (m : backup_manager) : Op → backup_manager
  | Op.do_backup => (do_backup w m).mgr
  | Op.add_directory source_dir dest_dir => (add_directory w m source_dir dest_dir).mgr
  | Op.create fd file => (create w m fd file).mgr
  | Op.«open» fd file oflag => («open» w m fd file oflag).mgr
  | Op.close fd => (close m fd).mgr
  | Op.write fd buf nbyte => (write w m fd buf nbyte).mgr
  | Op.read fd buf nbyte => (read w m fd buf nbyte).mgr
  | Op.pwrite fd buf nbyte offset => (pwrite w m fd buf nbyte offset).mgr
  | Op.lseek fd nbyte whence => (lseek w m fd nbyte whence).mgr
  | Op.rename oldpath newpath => (rename m oldpath newpath).mgr
  | Op.ftruncate fd length => (ftruncate w m fd length).mgr
  | Op.truncate path length => (truncate m path length).mgr
  | Op.mkdir pathname => (mkdir w m pathname).mgr
  | Op.get_throttle => (get_throttle m).mgr

/-- The manager after a sequence of operations, each run against the
environment it meets. -/
def run_ops (m : backup_manager) : List (World × Op) → backup_manager
  | [] => m
  | (w, op) :: rest => run_ops (step w m op) rest

/-! ## Vocabulary for the statements -/

/-- Calls on the Descriptor Table `m_map`. -/
def Call.onTable : Call → Bool
  | Call.map_size => true
  | Call.map_get _ => true
  | Call.map_put _ => true
  | Call.map_erase _ => true
  | _ => false

/-- Calls on a descriptor record. -/
def Call.onRecord : Call → Bool
  | Call.set_full_source_name _ _ => true
  | Call.get_full_source_name _ => true
  | Call.prepare_for_backup _ _ => true
  | Call.file_create _ => true
  | Call.file_open _ => true
  | Call.file_lock _ => true
  | Call.file_unlock _ => true
  | Call.file_write _ _ _ => true
  | Call.file_read _ _ => true
  | Call.file_pwrite _ _ _ _ => true
  | Call.file_lseek _ _ => true
  | Call.file_truncate _ _ => true
  | _ => false

/-- Calls on the Directory Mapping `m_dir`. -/
def Call.onDirectory : Call → Bool
  | Call.directories_set => true
  | Call.is_prefix _ => true
  | Call.translate_prefix _ => true
  | Call.open_path _ => true
  | Call.do_copy => true
  | Call.set_directories _ _ => true
  | _ => false

/-- Invocations of the progress callback. -/
def Call.isPoll : Call → Bool
  | Call.poll_fun _ _ => true
  | _ => false

/-- Invocations of the error callback. -/
def Call.isError : Call → Bool
  | Call.error_fun _ _ => true
  | _ => false

/-- Calls on the session mutex. -/
def Call.onMutex : Call → Bool
  | Call.pthread_mutex_trylock => true
  | Call.pthread_mutex_unlock => true
  | _ => false

/-- The calls the preparation loop can make: on the table, on a record, or
the three Directory Mapping calls `is_prefix`, `translate_prefix`, `open_path`. -/
def Call.inPreparation : Call → Bool
  | Call.map_size => true
  | Call.map_get _ => true
  | Call.get_full_source_name _ => true
  | Call.is_prefix _ => true
  | Call.translate_prefix _ => true
  | Call.prepare_for_backup _ _ => true
  | Call.open_path _ => true
  | Call.file_create _ => true
  | _ => false

/-- The manager fields other than the Descriptor Table agree. -/
def same_fields (m n : backup_manager) : Prop :=
  n.m_doing_backup = m.m_doing_backup ∧ n.m_doing_copy = m.m_doing_copy ∧
  n.m_capture_error = m.m_capture_error ∧ n.m_throttle = m.m_throttle ∧
  n.m_mutex = m.m_mutex

/-- The real system calls. -/
def Call.isReal : Call → Bool
  | Call.call_real_write _ _ _ => true
  | Call.call_real_read _ _ _ => true
  | Call.call_real_lseek _ _ _ => true
  | _ => false

/-- The descriptor whose record a mirror method (`write`, `read`, `pwrite`,
`lseek`, `truncate` of `file_description`) is invoked on. -/
def Call.mirrorOn : Call → Option Nat
  | Call.file_write fd _ _ => some fd
  | Call.file_read fd _ => some fd
  | Call.file_pwrite fd _ _ _ => some fd
  | Call.file_lseek fd _ => some fd
  | Call.file_truncate fd _ => some fd
  | _ => none

/-- Invocations of a record's mirror method. -/
def Call.isMirror (c : Call) : Bool := c.mirrorOn.isSome

/-- Replay of a list of calls against the record locks held (`held` lists the
descriptors whose record is locked): `lock()` only on a record not held,
`unlock()` only on a record held, a mirror method only on a record held, and
no lock left held at the end. -/
def lock_discipline : List Nat → List Call → Bool
  | held, [] => held.isEmpty
  | held, Call.file_lock fd :: rest =>
    ! held.contains fd && lock_discipline (fd :: held) rest
  | held, Call.file_unlock fd :: rest =>
    held.contains fd && lock_discipline (held.erase fd) rest
  | held, c :: rest =>
    (match c.mirrorOn with
     | some fd => held.contains fd
     | none => true) && lock_discipline held rest

/-- The backup-side steps of `create` and `open`. -/
def Call.backupSide : Call → Bool
  | Call.translate_prefix _ => true
  | Call.open_path _ => true
  | Call.prepare_for_backup _ _ => true
  | Call.file_create _ => true
  | Call.file_open _ => true
  | _ => false

/-- The condition under which `create` and `open` reach their backup-side
steps: a Directory Mapping is configured, the path lies under its source
prefix, and a session is active. -/
def mirrors (w : World) (m : backup_manager) (file : String) : Prop :=
  w.directories_set = true ∧ w.is_prefix file = true ∧ m.m_doing_backup = true

instance (w : World) (m : backup_manager) (file : String) : Decidable (mirrors w m file) := by
  unfold mirrors
  infer_instance

/-- The manager `m` with a new record for `fd` holding the source path `file`
and the backup path `backup`, in place of whatever slot `fd` held. -/
def with_record (m : backup_manager) (fd : Nat) (file : String) (backup : Option String) :
    backup_manager :=
  { m with
    m_map := (m.m_map.put fd).store fd { m_full_source_name := file, m_backup_name := backup } }

/-! ## Concrete environments and states -/

/-- A path lies under `/src` by whole components. -/
def under_src (path : String) : Bool :=
  "/src/".toList.isPrefixOf path.toList

/-- Replace the leading `/src` by `/bak`. -/
def src_to_bak (path : String) : String :=
  "/bak" ++ String.mk (path.toList.drop 4)

/-- An environment with the mapping `/src` to `/bak` configured, in which the
callbacks, the mutex, the Directory Mapping, the records and the real system
calls all succeed; a real call transfers the whole request. -/
def calm : World :=
  { poll_fun := fun _ _ => 0
    pthread_mutex_trylock := 0
    pthread_mutex_unlock := 0
    directories_set := true
    is_prefix := under_src
    translate_prefix := src_to_bak
    open_path := fun _ => 0
    do_copy := 0
    set_directories := fun _ _ => 0
    file_create := fun _ => 0
    file_open := fun _ => 0
    file_write := fun _ _ _ => 0
    file_read := fun _ _ => 0
    file_pwrite := fun _ _ _ _ => 0
    file_truncate := fun _ _ => 0
    call_real_write := fun _ _ nbyte => nbyte
    call_real_read := fun _ _ nbyte => nbyte
    call_real_lseek := fun _ nbyte _ => nbyte }

/-- A new manager after the application opened `/src/a.txt` as descriptor 3. -/
def one_open : backup_manager :=
  («open» calm backup_manager.new 3 "/src/a.txt" 0).mgr

/-- As `calm`, but the session mutex is held by another session. -/
def busy : World := { calm with pthread_mutex_trylock := EBUSY }

/-- As `calm`, but the progress callback asks for an abort with code 7. -/
def user_abort : World := { calm with poll_fun := fun _ _ => 7 }

/-- As `calm`, but the bulk-copy pass cannot be launched (code 5). -/
def launch_fails : World := { calm with do_copy := 5 }

/-- As `launch_fails`, and `pthread_mutex_unlock` fails too (code 1). -/
def launch_and_release_fail : World := { calm with do_copy := 5, pthread_mutex_unlock := 1 }

/-- As `calm`, but `pthread_mutex_unlock` fails (code 1). -/
def release_fails : World := { calm with pthread_mutex_unlock := 1 }

/-- As `calm`, but `open_path` and the record's `create` fail (code -1). -/
def setup_fails : World := { calm with open_path := fun _ => -1, file_create := fun _ => -1 }

/-! ## Lemmas on the Descriptor Table -/

theorem fmap.get_store (t : fmap) (fd : Nat) (f : file_description) (h : fd < t.size) :
    (t.store fd f).get fd = some f := by
  unfold fmap.size at h
  simp [fmap.store, fmap.get, List.get?_eq_getElem?, h]

theorem fmap.size_store (t : fmap) (fd : Nat) (f : file_description) :
    (t.store fd f).size = t.size := by
  simp [fmap.store, fmap.size]

theorem fmap.lt_size_put (t : fmap) (fd : Nat) : fd < (t.put fd).size := by
  simp [fmap.put, fmap.size]
  omega

theorem fmap.get_put (t : fmap) (fd : Nat) :
    (t.put fd).get fd = some file_description.fresh := by
  have h : fd < (t.slots ++ List.replicate (fd + 1 - t.slots.length) none).length := by
    simp
    omega
  unfold fmap.put fmap.get
  rw [List.get?_eq_getElem?, List.getElem?_set_self h]
  rfl

theorem fmap.lt_size_of_get (t : fmap) (fd : Nat) (f : file_description)
    (h : t.get fd = some f) : fd < t.size := by
  unfold fmap.get at h
  unfold fmap.size
  by_contra hge
  rw [List.get?_eq_none.mpr (by omega)] at h
  simp at h

/-! ## Lemmas on the preparation loop -/

theorem prepare_one_spec (w : World) (acc : backup_manager × List Call) (i : Nat) :
    same_fields acc.1 (prepare_one w acc i).1 ∧
    (prepare_one w acc i).1.m_map.size = acc.1.m_map.size ∧
    ∃ more, (prepare_one w acc i).2 = acc.2 ++ more ∧ ∀ c ∈ more, c.inPreparation = true := by
  unfold prepare_one
  split
  · refine ⟨⟨rfl, rfl, rfl, rfl, rfl⟩, rfl, [Call.map_size, Call.map_get i], rfl, ?_⟩
    intro c hc
    simp at hc
    rcases hc with rfl | rfl <;> rfl
  · rename_i file _
    dsimp only
    split
    · refine ⟨⟨rfl, rfl, rfl, rfl, rfl⟩, rfl, ?_⟩
      refine ⟨[Call.map_size, Call.map_get i, Call.get_full_source_name i,
        Call.is_prefix file.get_full_source_name], by simp, ?_⟩
      intro c hc
      simp at hc
      rcases hc with rfl | rfl | rfl | rfl <;> rfl
    · refine ⟨⟨rfl, rfl, rfl, rfl, rfl⟩, fmap.size_store _ _ _, ?_⟩
      refine ⟨[Call.map_size, Call.map_get i, Call.get_full_source_name i,
        Call.is_prefix file.get_full_source_name,
        Call.translate_prefix file.get_full_source_name,
        Call.prepare_for_backup i (w.translate_prefix file.get_full_source_name),
        Call.open_path (w.translate_prefix file.get_full_source_name),
        Call.file_create i], by simp, ?_⟩
      intro c hc
      simp at hc
      rcases hc with rfl | rfl | rfl | rfl | rfl | rfl | rfl | rfl <;> rfl

theorem prepare_fold_spec (w : World) (l : List Nat) (acc : backup_manager × List Call) :
    same_fields acc.1 (l.foldl (prepare_one w) acc).1 ∧
    (l.foldl (prepare_one w) acc).1.m_map.size = acc.1.m_map.size ∧
    ∃ more, (l.foldl (prepare_one w) acc).2 = acc.2 ++ more ∧
      ∀ c ∈ more, c.inPreparation = true := by
  induction l generalizing acc with
  | nil => exact ⟨⟨rfl, rfl, rfl, rfl, rfl⟩, rfl, [], by simp, by simp⟩
  | cons i l ih =>
    obtain ⟨⟨a1, a2, a3, a4, a5⟩, hs, m1, h1, p1⟩ := prepare_one_spec w acc i
    obtain ⟨⟨b1, b2, b3, b4, b5⟩, hs2, m2, h2, p2⟩ := ih (prepare_one w acc i)
    simp only [List.foldl_cons]
    refine ⟨⟨b1.trans a1, b2.trans a2, b3.trans a3, b4.trans a4, b5.trans a5⟩,
      hs2.trans hs, m1 ++ m2, ?_, ?_⟩
    · rw [h2, h1, List.append_assoc]
    · intro c hc
      rcases List.mem_append.mp hc with h | h
      · exact p1 c h
      · exact p2 c h

/-- The body of the preparation loop leaves the number of slots as it was, so
the loop bound read on entry is the bound at every test. -/
theorem prepare_one_size (w : World) (acc : backup_manager × List Call) (i : Nat) :
    (prepare_one w acc i).1.m_map.size = acc.1.m_map.size :=
  (prepare_one_spec w acc i).2.1

theorem prepare_loop_spec (w : World) (m : backup_manager) :
    same_fields m (prepare_loop w m).1 ∧
    ∀ c ∈ (prepare_loop w m).2, c.inPreparation = true := by
  obtain ⟨hf, _, more, h, p⟩ := prepare_fold_spec w (List.range m.m_map.size) (m, [])
  refine ⟨hf, ?_⟩
  intro c hc
  unfold prepare_loop at hc
  simp only [h, List.nil_append, List.mem_append, List.mem_singleton] at hc
  rcases hc with hc | rfl
  · exact p c hc
  · rfl

theorem count_eq_zero_of_inPreparation (l : List Call) (c : Call)
    (hc : c.inPreparation = false) (h : ∀ x ∈ l, x.inPreparation = true) :
    l.count c = 0 := by
  apply List.count_eq_zero.mpr
  intro hmem
  rw [h c hmem] at hc
  exact Bool.noConfusion hc

/-! ## Session start: `do_backup` -/

theorem do_backup_locked (w : World) (m : backup_manager)
    (hpoll : w.poll_fun 0 "Preparing backup" = 0) (hlock : w.pthread_mutex_trylock = 0) :
    do_backup w m =
      unlock_out w w.do_copy (prepare_loop w { m with m_mutex := true }).1
        ([Call.poll_fun 0 "Preparing backup", Call.pthread_mutex_trylock] ++
          (prepare_loop w { m with m_mutex := true }).2 ++ [Call.do_copy]) := by
  simp [do_backup, hpoll, hlock]

/-- C1: when the progress callback returns 0 and `pthread_mutex_trylock`
reports `EBUSY`, `do_backup` returns `EBUSY` (non-zero), the error callback is
invoked exactly once, with `EBUSY`, the manager's fields are unchanged, and the
only calls are the progress callback, the trylock and that error callback: no
call on the Descriptor Table, on a record or on the Directory Mapping, and no
`pthread_mutex_unlock`. -/
theorem do_backup_busy_no_mutation (w : World) (m : backup_manager)
    (hpoll : w.poll_fun 0 "Preparing backup" = 0)
    (hbusy : w.pthread_mutex_trylock = EBUSY) :
    (do_backup w m).ret = EBUSY ∧ (do_backup w m).ret ≠ 0 ∧
    (do_backup w m).calls.filter Call.isError =
      [Call.error_fun EBUSY "Another backup is in progress."] ∧
    (do_backup w m).mgr = m ∧
    (do_backup w m).calls =
      [Call.poll_fun 0 "Preparing backup", Call.pthread_mutex_trylock,
       Call.error_fun EBUSY "Another backup is in progress."] ∧
    (∀ c ∈ (do_backup w m).calls, c.onTable = false ∧ c.onRecord = false ∧
      c.onDirectory = false ∧ c ≠ Call.pthread_mutex_unlock) := by
  have h : do_backup w m =
      { ret := EBUSY, mgr := m,
        calls := [Call.poll_fun 0 "Preparing backup", Call.pthread_mutex_trylock,
          Call.error_fun EBUSY "Another backup is in progress."] } := by
    simp [do_backup, hpoll, hbusy, EBUSY]
  rw [h]
  refine ⟨rfl, (by decide : EBUSY ≠ 0), rfl, rfl, rfl, ?_⟩
  intro c hc
  simp only [List.mem_cons, List.mem_singleton, List.not_mem_nil, or_false] at hc
  rcases hc with rfl | rfl | rfl <;> exact ⟨rfl, rfl, rfl, by simp⟩

theorem do_backup_busy_no_mutation_witness :
    busy.poll_fun 0 "Preparing backup" = 0 ∧ busy.pthread_mutex_trylock = EBUSY ∧
    (do_backup busy one_open).ret = 16 ∧ (do_backup busy one_open).mgr = one_open :=
  ⟨rfl, rfl, (do_backup_busy_no_mutation busy one_open rfl rfl).1,
    (do_backup_busy_no_mutation busy one_open rfl rfl).2.2.2.1⟩

/-- C2: when the progress callback, invoked at the start of `do_backup`,
returns `a ≠ 0`, the progress callback is invoked exactly once, the error
callback exactly once, with code `a` and the user-abort message, `do_backup`
returns `a` (non-zero), the manager's fields are unchanged, and nothing else
is called: no trylock, no record or Directory Mapping call, no bulk copy. -/
theorem do_backup_user_abort (w : World) (m : backup_manager) (a : Int)
    (hpoll : w.poll_fun 0 "Preparing backup" = a) (ha : a ≠ 0) :
    (do_backup w m).calls.filter Call.isPoll = [Call.poll_fun 0 "Preparing backup"] ∧
    (do_backup w m).calls.filter Call.isError = [Call.error_fun a "User aborted backup"] ∧
    (do_backup w m).ret = a ∧ (do_backup w m).ret ≠ 0 ∧
    (do_backup w m).mgr = m ∧
    (do_backup w m).calls =
      [Call.poll_fun 0 "Preparing backup", Call.error_fun a "User aborted backup"] ∧
    (∀ c ∈ (do_backup w m).calls, c.onMutex = false ∧ c.onTable = false ∧
      c.onRecord = false ∧ c.onDirectory = false) := by
  have h : do_backup w m =
      { ret := a, mgr := m,
        calls := [Call.poll_fun 0 "Preparing backup",
          Call.error_fun a "User aborted backup"] } := by
    simp [do_backup, hpoll, ha]
  rw [h]
  refine ⟨rfl, rfl, rfl, ha, rfl, rfl, ?_⟩
  intro c hc
  simp only [List.mem_cons, List.mem_singleton, List.not_mem_nil, or_false] at hc
  rcases hc with rfl | rfl <;> exact ⟨rfl, rfl, rfl, rfl⟩

theorem do_backup_user_abort_witness :
    user_abort.poll_fun 0 "Preparing backup" = 7 ∧ (7 : Int) ≠ 0 ∧
    (do_backup user_abort one_open).ret = 7 ∧
    (do_backup user_abort one_open).calls =
      [Call.poll_fun 0 "Preparing backup", Call.error_fun 7 "User aborted backup"] :=
  ⟨rfl, by decide, (do_backup_user_abort user_abort one_open 7 rfl (by decide)).2.2.1,
    (do_backup_user_abort user_abort one_open 7 rfl (by decide)).2.2.2.2.2.1⟩

theorem unlock_out_released (w : World) (r : Int) (m : backup_manager) (t : List Call)
    (h : w.pthread_mutex_unlock = 0) :
    unlock_out w r m t =
      { ret := r, mgr := { m with m_mutex := false },
        calls := t ++ [Call.pthread_mutex_unlock] } := by
  simp [unlock_out, h]

theorem unlock_out_failed (w : World) (r : Int) (m : backup_manager) (t : List Call)
    (h : w.pthread_mutex_unlock ≠ 0) :
    unlock_out w r m t =
      { ret := if r ≠ 0 then w.pthread_mutex_unlock else r, mgr := m,
        calls := t ++ [Call.pthread_mutex_unlock] ++
          [Call.error_fun w.pthread_mutex_unlock
            "pthread_mutex_unlock failed.  Backup system is probably broken"] } := by
  simp [unlock_out, h]

/-- The results of `open_path` and of the record's `create` have no influence
on `do_backup`: whatever they return, the calls, the return value and the
final state are the same. -/
theorem do_backup_ignores_setup_results (w : World) (m : backup_manager)
    (open_path : String → Int) (file_create : Nat → Int) :
    do_backup { w with open_path := open_path, file_create := file_create } m =
      do_backup w m := rfl

/-- C3 as stated fails when the release itself fails: on a new manager, whose
session mutex is free, with the progress callback and the trylock returning 0
and `pthread_mutex_unlock` returning 1, `do_backup` calls
`pthread_mutex_unlock` once, reports the failure through the error callback,
and returns with the session mutex still locked. -/
theorem do_backup_failed_release_leaves_lock_held :
    release_fails.poll_fun 0 "Preparing backup" = 0 ∧
    release_fails.pthread_mutex_trylock = 0 ∧
    release_fails.pthread_mutex_unlock = 1 ∧
    backup_manager.new.m_mutex = false ∧
    (do_backup release_fails backup_manager.new).calls =
      [Call.poll_fun 0 "Preparing backup", Call.pthread_mutex_trylock, Call.map_size,
       Call.do_copy, Call.pthread_mutex_unlock,
       Call.error_fun 1 "pthread_mutex_unlock failed.  Backup system is probably broken"] ∧
    (do_backup release_fails backup_manager.new).calls.count Call.pthread_mutex_unlock = 1 ∧
    (do_backup release_fails backup_manager.new).mgr.m_mutex = true := by
  decide

/-- C3, amended: when `do_backup` acquires the session lock (progress callback
returns 0, trylock returns 0), `pthread_mutex_unlock` is called exactly once,
after the preparation loop and the bulk-copy launch and followed at most by
the error callback, whatever `open_path`, `create` and the launch return; a
release that succeeds leaves the session mutex free; and when the launch fails
with `e ≠ 0` and the release succeeds, the mutex is free and `do_backup`
returns `e`. -/
theorem do_backup_releases_session_lock (w : World) (m : backup_manager)
    (hpoll : w.poll_fun 0 "Preparing backup" = 0)
    (hlock : w.pthread_mutex_trylock = 0) :
    (do_backup w m).calls.count Call.pthread_mutex_unlock = 1 ∧
    (∃ after, (do_backup w m).calls =
        [Call.poll_fun 0 "Preparing backup", Call.pthread_mutex_trylock] ++
          (prepare_loop w { m with m_mutex := true }).2 ++
          [Call.do_copy, Call.pthread_mutex_unlock] ++ after ∧
        ∀ c ∈ after, c.isError = true) ∧
    (w.pthread_mutex_unlock = 0 → (do_backup w m).mgr.m_mutex = false) ∧
    (∀ e : Int, w.do_copy = e → e ≠ 0 → w.pthread_mutex_unlock = 0 →
      (do_backup w m).ret = e ∧ (do_backup w m).mgr.m_mutex = false) := by
  have hloop := (prepare_loop_spec w { m with m_mutex := true }).2
  have hcount := count_eq_zero_of_inPreparation _ Call.pthread_mutex_unlock rfl hloop
  rw [do_backup_locked w m hpoll hlock]
  by_cases hu : w.pthread_mutex_unlock = 0
  · rw [unlock_out_released w _ _ _ hu]
    refine ⟨?_, ⟨[], by simp, by simp⟩, fun _ => rfl, fun e he _ _ => ⟨he, rfl⟩⟩
    simp [List.count_append, hcount, List.count_cons]
  · rw [unlock_out_failed w _ _ _ hu]
    refine ⟨?_, ⟨[Call.error_fun w.pthread_mutex_unlock
        "pthread_mutex_unlock failed.  Backup system is probably broken"], by simp, ?_⟩,
      fun h => absurd h hu, fun _ _ _ h => absurd h hu⟩
    · simp [List.count_append, hcount, List.count_cons]
    · intro c hc
      simp only [List.mem_singleton] at hc
      rw [hc]
      rfl

theorem do_backup_releases_session_lock_witness :
    launch_fails.poll_fun 0 "Preparing backup" = 0 ∧
    launch_fails.pthread_mutex_trylock = 0 ∧
    (do_backup launch_fails one_open).calls.count Call.pthread_mutex_unlock = 1 ∧
    (do_backup launch_fails one_open).ret = 5 ∧
    (do_backup launch_fails one_open).mgr.m_mutex = false :=
  ⟨rfl, rfl, (do_backup_releases_session_lock launch_fails one_open rfl rfl).1,
    (do_backup_releases_session_lock launch_fails one_open rfl rfl).2.2.2 5 rfl
      (by decide) rfl⟩

/-- C4: on a new manager, with the bulk-copy launch failing with code 5 and
`pthread_mutex_unlock` then failing with code 1, the release failure is
reported through the error callback with code 1, and `do_backup` returns 1:
the statement `if (r!=0) r = pthread_error;` replaces the primary code 5. -/
theorem do_backup_release_failure_replaces_primary_error :
    launch_and_release_fail.do_copy = 5 ∧
    launch_and_release_fail.pthread_mutex_unlock = 1 ∧
    (do_backup launch_and_release_fail backup_manager.new).calls =
      [Call.poll_fun 0 "Preparing backup", Call.pthread_mutex_trylock, Call.map_size,
       Call.do_copy, Call.pthread_mutex_unlock,
       Call.error_fun 1 "pthread_mutex_unlock failed.  Backup system is probably broken"] ∧
    (do_backup launch_and_release_fail backup_manager.new).ret = 1 ∧
    (do_backup launch_and_release_fail backup_manager.new).ret ≠ 5 := by
  decide

/-- The general form of the C4 evaluation: after a failed launch (`e ≠ 0`) a
failed release (`p ≠ 0`) makes `do_backup` return `p`. -/
theorem do_backup_returns_release_error (w : World) (m : backup_manager)
    (hpoll : w.poll_fun 0 "Preparing backup" = 0) (hlock : w.pthread_mutex_trylock = 0)
    (he : w.do_copy ≠ 0) (hp : w.pthread_mutex_unlock ≠ 0) :
    (do_backup w m).ret = w.pthread_mutex_unlock := by
  rw [do_backup_locked w m hpoll hlock]
  simp [unlock_out, he, hp]

/-- C5: with `/src/a.txt` open as descriptor 3 (in-tree) and both `open_path`
and the record's `create` failing with -1 in the preparation loop, `do_backup`
still launches the bulk copy and returns 0; the session lock is released. -/
theorem do_backup_setup_failure_not_aborted :
    setup_fails.is_prefix "/src/a.txt" = true ∧
    setup_fails.open_path "/bak/a.txt" = -1 ∧ setup_fails.file_create 3 = -1 ∧
    one_open.m_map.get 3 =
      some { m_full_source_name := "/src/a.txt", m_backup_name := none } ∧
    (do_backup setup_fails one_open).calls =
      [Call.poll_fun 0 "Preparing backup", Call.pthread_mutex_trylock,
       Call.map_size, Call.map_get 0, Call.map_size, Call.map_get 1,
       Call.map_size, Call.map_get 2, Call.map_size, Call.map_get 3,
       Call.get_full_source_name 3, Call.is_prefix "/src/a.txt",
       Call.translate_prefix "/src/a.txt", Call.prepare_for_backup 3 "/bak/a.txt",
       Call.open_path "/bak/a.txt", Call.file_create 3, Call.map_size,
       Call.do_copy, Call.pthread_mutex_unlock] ∧
    (do_backup setup_fails one_open).ret = 0 ∧
    Call.do_copy ∈ (do_backup setup_fails one_open).calls ∧
    (do_backup setup_fails one_open).mgr.m_mutex = false := by
  decide

/-! ## Interception: `create`, `open`, `mkdir` -/

theorem fmap.store_store (t : fmap) (fd : Nat) (f g : file_description) :
    (t.store fd f).store fd g = t.store fd g := by
  simp [fmap.store]

theorem with_record_get (m : backup_manager) (fd : Nat) (file : String)
    (backup : Option String) :
    (with_record m fd file backup).m_map.get fd =
      some { m_full_source_name := file, m_backup_name := backup } :=
  fmap.get_store _ _ _ (fmap.lt_size_put _ _)

theorem insert_record_eq (m : backup_manager) (fd : Nat) (file : String) :
    insert_record m fd file =
      (with_record m fd file none,
       [Call.map_put fd, Call.map_get fd, Call.set_full_source_name fd file]) := by
  unfold insert_record
  simp only [fmap.get_put]
  rfl

theorem prepare_record_with_record (m : backup_manager) (fd : Nat) (file name : String) :
    prepare_record (with_record m fd file none) fd name =
      with_record m fd file (some name) := by
  unfold prepare_record
  rw [with_record_get]
  simp [with_record, fmap.store_store, file_description.prepare_for_backup]

theorem get_directory_eq (w : World) (file : String) :
    get_directory w file =
      (w.directories_set && w.is_prefix file,
       Call.directories_set :: (if w.directories_set = true then [Call.is_prefix file] else [])) := by
  unfold get_directory
  cases w.directories_set <;> cases w.is_prefix file <;> rfl

theorem create_eq (w : World) (m : backup_manager) (fd : Nat) (file : String) :
    create w m fd file =
      if mirrors w m file then
        { ret := (), mgr := with_record m fd file (some (w.translate_prefix file)),
          calls := [Call.map_put fd, Call.map_get fd, Call.set_full_source_name fd file,
            Call.directories_set, Call.is_prefix file, Call.translate_prefix file,
            Call.open_path (w.translate_prefix file),
            Call.prepare_for_backup fd (w.translate_prefix file), Call.file_create fd] }
      else
        { ret := (), mgr := with_record m fd file none,
          calls := [Call.map_put fd, Call.map_get fd, Call.set_full_source_name fd file,
            Call.directories_set] ++
            (if w.directories_set = true then [Call.is_prefix file] else []) } := by
  unfold create mirrors
  rw [insert_record_eq, get_directory_eq]
  have hb : (with_record m fd file none).m_doing_backup = m.m_doing_backup := rfl
  by_cases hd : w.directories_set = true <;> by_cases hp : w.is_prefix file = true <;>
    by_cases hm : m.m_doing_backup = true <;>
    simp [hb, hd, hp, hm, prepare_record_with_record]

theorem open_eq (w : World) (m : backup_manager) (fd : Nat) (file : String) (oflag : Int) :
    «open» w m fd file oflag =
      if mirrors w m file then
        { ret := (), mgr := with_record m fd file (some (w.translate_prefix file)),
          calls := [Call.map_put fd, Call.map_get fd, Call.set_full_source_name fd file,
            Call.directories_set, Call.is_prefix file, Call.translate_prefix file,
            Call.open_path (w.translate_prefix file),
            Call.prepare_for_backup fd (w.translate_prefix file), Call.file_open fd] }
      else
        { ret := (), mgr := with_record m fd file none,
          calls := [Call.map_put fd, Call.map_get fd, Call.set_full_source_name fd file,
            Call.directories_set] ++
            (if w.directories_set = true then [Call.is_prefix file] else []) } := by
  unfold «open» mirrors
  rw [insert_record_eq, get_directory_eq]
  have hb : (with_record m fd file none).m_doing_backup = m.m_doing_backup := rfl
  by_cases hd : w.directories_set = true <;> by_cases hp : w.is_prefix file = true <;>
    by_cases hm : m.m_doing_backup = true <;>
    simp [hb, hd, hp, hm, prepare_record_with_record]

/-- C6: `open(fd, path, flags)` and `create(fd, path)` always leave a record
for `fd` whose source path is `path`; they make a backup-side call exactly
when a Directory Mapping is configured, `path` lies under its source prefix
and `m_doing_backup` is set, and then the calls are, in order,
`translate_prefix(path)`, `open_path` on the translated path,
`prepare_for_backup` with the translated path, and the record's `open` resp.
`create`; otherwise the only effect is the new record holding the source path
(and the two queries of `get_directory`). -/
theorem open_create_insert_and_mirror (w : World) (m : backup_manager) (fd : Nat)
    (file : String) (oflag : Int) :
    (∃ d, («open» w m fd file oflag).mgr.m_map.get fd = some d ∧
      d.get_full_source_name = file) ∧
    (∃ d, (create w m fd file).mgr.m_map.get fd = some d ∧
      d.get_full_source_name = file) ∧
    ((∃ c ∈ («open» w m fd file oflag).calls, c.backupSide = true) ↔ mirrors w m file) ∧
    ((∃ c ∈ (create w m fd file).calls, c.backupSide = true) ↔ mirrors w m file) ∧
    («open» w m fd file oflag).calls =
      [Call.map_put fd, Call.map_get fd, Call.set_full_source_name fd file,
       Call.directories_set] ++
      (if w.directories_set = true then [Call.is_prefix file] else []) ++
      (if mirrors w m file then
        [Call.translate_prefix file, Call.open_path (w.translate_prefix file),
         Call.prepare_for_backup fd (w.translate_prefix file), Call.file_open fd]
       else []) ∧
    (create w m fd file).calls =
      [Call.map_put fd, Call.map_get fd, Call.set_full_source_name fd file,
       Call.directories_set] ++
      (if w.directories_set = true then [Call.is_prefix file] else []) ++
      (if mirrors w m file then
        [Call.translate_prefix file, Call.open_path (w.translate_prefix file),
         Call.prepare_for_backup fd (w.translate_prefix file), Call.file_create fd]
       else []) ∧
    («open» w m fd file oflag).mgr =
      with_record m fd file
        (if mirrors w m file then some (w.translate_prefix file) else none) ∧
    (create w m fd file).mgr =
      with_record m fd file
        (if mirrors w m file then some (w.translate_prefix file) else none) := by
  have ho := open_eq w m fd file oflag
  have hc := create_eq w m fd file
  by_cases h : mirrors w m file
  · have hd : w.directories_set = true := h.1
    rw [if_pos h] at ho hc
    refine ⟨?_, ?_, ?_, ?_, ?_, ?_, ?_, ?_⟩
    · rw [ho]
      exact ⟨_, with_record_get _ _ _ _, rfl⟩
    · rw [hc]
      exact ⟨_, with_record_get _ _ _ _, rfl⟩
    · rw [ho]
      exact ⟨fun _ => h, fun _ => ⟨Call.file_open fd, by simp, rfl⟩⟩
    · rw [hc]
      exact ⟨fun _ => h, fun _ => ⟨Call.file_create fd, by simp, rfl⟩⟩
    · rw [ho]
      simp [h, hd]
    · rw [hc]
      simp [h, hd]
    · rw [ho]
      simp [h]
    · rw [hc]
      simp [h]
  · rw [if_neg h] at ho hc
    have hnone : ∀ c ∈ [Call.map_put fd, Call.map_get fd, Call.set_full_source_name fd file,
        Call.directories_set] ++ (if w.directories_set = true then [Call.is_prefix file] else []),
        c.backupSide = false := by
      intro c hc'
      by_cases hd : w.directories_set = true
      · simp [hd] at hc'
        rcases hc' with rfl | rfl | rfl | rfl | rfl <;> rfl
      · simp [hd] at hc'
        rcases hc' with rfl | rfl | rfl | rfl <;> rfl
    refine ⟨?_, ?_, ?_, ?_, ?_, ?_, ?_, ?_⟩
    · rw [ho]
      exact ⟨_, with_record_get _ _ _ _, rfl⟩
    · rw [hc]
      exact ⟨_, with_record_get _ _ _ _, rfl⟩
    · rw [ho]
      refine ⟨?_, fun hf => absurd hf h⟩
      rintro ⟨c, hmem, hb⟩
      rw [hnone c hmem] at hb
      exact Bool.noConfusion hb
    · rw [hc]
      refine ⟨?_, fun hf => absurd hf h⟩
      rintro ⟨c, hmem, hb⟩
      rw [hnone c hmem] at hb
      exact Bool.noConfusion hb
    · rw [ho]
      simp [h]
    · rw [hc]
      simp [h]
    · rw [ho]
      simp [h]
    · rw [hc]
      simp [h]

/-- The calls of `mkdir` do not depend on `m_doing_backup`: the method never
reads the flag. -/
theorem mkdir_ignores_doing_backup (w : World) (m : backup_manager) (pathname : String)
    (b : Bool) :
    (mkdir w { m with m_doing_backup := b } pathname).calls = (mkdir w m pathname).calls := by
  unfold mkdir
  dsimp only
  cases (get_directory w pathname).1 <;> rfl

/-- C7: on a new manager (no session active, `m_doing_backup` false) with the
mapping `/src` to `/bak` configured, `mkdir("/src/d")` calls
`translate_prefix` and `open_path("/bak/d")`, while `create` of a file in the
same tree, in the same state, makes no backup-side call. -/
theorem mkdir_mirrors_without_session :
    backup_manager.new.m_doing_backup = false ∧
    calm.directories_set = true ∧ calm.is_prefix "/src/d" = true ∧
    (mkdir calm backup_manager.new "/src/d").calls =
      [Call.directories_set, Call.is_prefix "/src/d", Call.translate_prefix "/src/d",
       Call.open_path "/bak/d"] ∧
    (create calm backup_manager.new 3 "/src/d/f").calls =
      [Call.map_put 3, Call.map_get 3, Call.set_full_source_name 3 "/src/d/f",
       Call.directories_set, Call.is_prefix "/src/d/f"] := by
  decide

/-! ## Interception: `write`, `read`, `lseek`, `pwrite`, `ftruncate` -/

/-- C8: `write`, `read` and `lseek` invoke the real system call exactly once,
with the caller's arguments, and return exactly its result, whether or not
`fd` has a record and whatever the record's mirror method returns; when `fd`
has a record the mirror method is invoked exactly once, after the real call,
with the real call's result (not the requested size); the manager's fields
are unchanged. -/
theorem write_read_lseek_pass_through (w : World) (m : backup_manager) (fd : Nat)
    (buf : Buf) (nbyte : Nat) (whence : Int) :
    ((write w m fd buf nbyte).ret = w.call_real_write fd buf nbyte ∧
     (write w m fd buf nbyte).calls.filter Call.isReal =
       [Call.call_real_write fd buf nbyte] ∧
     (write w m fd buf nbyte).calls =
       (match m.m_map.get fd with
        | none => [Call.map_get fd, Call.call_real_write fd buf nbyte]
        | some _ =>
          [Call.map_get fd, Call.file_lock fd, Call.call_real_write fd buf nbyte,
           Call.file_write fd (w.call_real_write fd buf nbyte) buf, Call.file_unlock fd]) ∧
     (write w m fd buf nbyte).calls.filter Call.isMirror =
       (match m.m_map.get fd with
        | none => []
        | some _ => [Call.file_write fd (w.call_real_write fd buf nbyte) buf]) ∧
     (write w m fd buf nbyte).mgr = m) ∧
    ((read w m fd buf nbyte).ret = w.call_real_read fd buf nbyte ∧
     (read w m fd buf nbyte).calls.filter Call.isReal =
       [Call.call_real_read fd buf nbyte] ∧
     (read w m fd buf nbyte).calls =
       (match m.m_map.get fd with
        | none => [Call.map_get fd, Call.call_real_read fd buf nbyte]
        | some _ =>
          [Call.map_get fd, Call.file_lock fd, Call.call_real_read fd buf nbyte,
           Call.file_read fd (w.call_real_read fd buf nbyte), Call.file_unlock fd]) ∧
     (read w m fd buf nbyte).calls.filter Call.isMirror =
       (match m.m_map.get fd with
        | none => []
        | some _ => [Call.file_read fd (w.call_real_read fd buf nbyte)]) ∧
     (read w m fd buf nbyte).mgr = m) ∧
    ((lseek w m fd nbyte whence).ret = w.call_real_lseek fd nbyte whence ∧
     (lseek w m fd nbyte whence).calls.filter Call.isReal =
       [Call.call_real_lseek fd nbyte whence] ∧
     (lseek w m fd nbyte whence).calls =
       (match m.m_map.get fd with
        | none => [Call.map_get fd, Call.call_real_lseek fd nbyte whence]
        | some _ =>
          [Call.map_get fd, Call.file_lock fd, Call.call_real_lseek fd nbyte whence,
           Call.file_lseek fd (w.call_real_lseek fd nbyte whence), Call.file_unlock fd]) ∧
     (lseek w m fd nbyte whence).calls.filter Call.isMirror =
       (match m.m_map.get fd with
        | none => []
        | some _ => [Call.file_lseek fd (w.call_real_lseek fd nbyte whence)]) ∧
     (lseek w m fd nbyte whence).mgr = m) := by
  unfold write read lseek
  cases m.m_map.get fd <;>
    exact ⟨⟨rfl, rfl, rfl, rfl, rfl⟩, ⟨rfl, rfl, rfl, rfl, rfl⟩, rfl, rfl, rfl, rfl, rfl⟩

/-- C10 as stated fails for `pwrite`: with `/src/a.txt` open as descriptor 3,
so that 3 has a record, `pwrite` invokes the record's `pwrite` with no
`lock()` before it and no `unlock()` after it. -/
theorem pwrite_mirrors_without_record_lock :
    one_open.m_map.get 3 =
      some { m_full_source_name := "/src/a.txt", m_backup_name := none } ∧
    (pwrite calm one_open 3 [104, 105] 2 0).calls =
      [Call.map_get 3, Call.file_pwrite 3 [104, 105] 2 0] ∧
    lock_discipline [] (pwrite calm one_open 3 [104, 105] 2 0).calls = false := by
  decide

/-- C10, amended: for a descriptor that has a record, `write`, `read` and
`lseek` take the record's lock once, make the real call and then the mirror
call while it is held, and release it once before returning, so their calls
pass `lock_discipline`; `pwrite` and `ftruncate` invoke the record's `pwrite`
resp. `truncate` once and take no record lock. -/
theorem mirror_lock_discipline (w : World) (m : backup_manager) (fd : Nat)
    (d : file_description) (buf : Buf) (nbyte : Nat) (whence offset length : Int)
    (hrec : m.m_map.get fd = some d) :
    ((write w m fd buf nbyte).calls =
        [Call.map_get fd, Call.file_lock fd, Call.call_real_write fd buf nbyte,
         Call.file_write fd (w.call_real_write fd buf nbyte) buf, Call.file_unlock fd] ∧
      lock_discipline [] (write w m fd buf nbyte).calls = true) ∧
    ((read w m fd buf nbyte).calls =
        [Call.map_get fd, Call.file_lock fd, Call.call_real_read fd buf nbyte,
         Call.file_read fd (w.call_real_read fd buf nbyte), Call.file_unlock fd] ∧
      lock_discipline [] (read w m fd buf nbyte).calls = true) ∧
    ((lseek w m fd nbyte whence).calls =
        [Call.map_get fd, Call.file_lock fd, Call.call_real_lseek fd nbyte whence,
         Call.file_lseek fd (w.call_real_lseek fd nbyte whence), Call.file_unlock fd] ∧
      lock_discipline [] (lseek w m fd nbyte whence).calls = true) ∧
    (pwrite w m fd buf nbyte offset).calls =
      [Call.map_get fd, Call.file_pwrite fd buf nbyte offset] ∧
    (ftruncate w m fd length).calls = [Call.map_get fd, Call.file_truncate fd length] := by
  simp [write, read, lseek, pwrite, ftruncate, hrec, lock_discipline, Call.mirrorOn]

theorem mirror_lock_discipline_witness :
    one_open.m_map.get 3 =
      some { m_full_source_name := "/src/a.txt", m_backup_name := none } ∧
    lock_discipline [] (write calm one_open 3 [104, 105] 2).calls = true ∧
    (ftruncate calm one_open 3 0).calls = [Call.map_get 3, Call.file_truncate 3 0] :=
  ⟨by decide,
    (mirror_lock_discipline calm one_open 3
      { m_full_source_name := "/src/a.txt", m_backup_name := none } [104, 105] 2 0 0 0
      (by decide)).1.2,
    (mirror_lock_discipline calm one_open 3
      { m_full_source_name := "/src/a.txt", m_backup_name := none } [104, 105] 2 0 0 0
      (by decide)).2.2.2.2⟩

/-! ## Throttle -/

theorem do_backup_throttle (w : World) (m : backup_manager) :
    (do_backup w m).mgr.m_throttle = m.m_throttle := by
  have hl := (prepare_loop_spec w { m with m_mutex := true }).1.2.2.2.1
  unfold do_backup unlock_out
  dsimp only
  split
  · rfl
  · split
    · split <;> rfl
    · split
      · exact hl
      · exact hl

theorem step_throttle (w : World) (m : backup_manager) (op : Op) :
    (step w m op).m_throttle = m.m_throttle := by
  cases op with
  | do_backup => exact do_backup_throttle w m
  | add_directory source_dir dest_dir => rfl
  | create fd file =>
    show (create w m fd file).mgr.m_throttle = m.m_throttle
    rw [create_eq]
    split <;> rfl
  | «open» fd file oflag =>
    show («open» w m fd file oflag).mgr.m_throttle = m.m_throttle
    rw [open_eq]
    split <;> rfl
  | close fd => rfl
  | write fd buf nbyte =>
    show (write w m fd buf nbyte).mgr.m_throttle = m.m_throttle
    unfold write
    split <;> rfl
  | read fd buf nbyte =>
    show (read w m fd buf nbyte).mgr.m_throttle = m.m_throttle
    unfold read
    split <;> rfl
  | pwrite fd buf nbyte offset =>
    show (pwrite w m fd buf nbyte offset).mgr.m_throttle = m.m_throttle
    unfold pwrite
    split <;> rfl
  | lseek fd nbyte whence =>
    show (lseek w m fd nbyte whence).mgr.m_throttle = m.m_throttle
    unfold lseek
    split <;> rfl
  | rename oldpath newpath => rfl
  | ftruncate fd length =>
    show (ftruncate w m fd length).mgr.m_throttle = m.m_throttle
    unfold ftruncate
    split <;> rfl
  | truncate path length => rfl
  | mkdir pathname =>
    show (mkdir w m pathname).mgr.m_throttle = m.m_throttle
    unfold mkdir
    dsimp only
    split <;> rfl
  | get_throttle => rfl

theorem run_ops_throttle (steps : List (World × Op)) (m : backup_manager) :
    (run_ops m steps).m_throttle = m.m_throttle := by
  induction steps generalizing m with
  | nil => rfl
  | cons s rest ih =>
    obtain ⟨w, op⟩ := s
    show (run_ops (step w m op) rest).m_throttle = m.m_throttle
    rw [ih, step_throttle]

/-- C9: after `set_throttle(v)`, any sequence of manager operations without a
`set_throttle` (`open`, `create`, `close`, `write`, `read`, `pwrite`, `lseek`,
`ftruncate`, `truncate`, `mkdir`, `rename`, `do_backup`, `add_directory`,
`get_throttle`), each against any environment, is followed by a
`get_throttle()` that returns exactly `v`; `set_throttle` changes no field of
the manager but `m_throttle` and makes no call on any collaborator (so none on
the Directory Mapping). -/
theorem throttle_round_trip (v : Nat) (m : backup_manager) (steps : List (World × Op)) :
    (get_throttle (run_ops (set_throttle m v).mgr steps)).ret = v ∧
    (set_throttle m v).mgr = { m with m_throttle := v } ∧
    (set_throttle m v).mgr.m_doing_backup = m.m_doing_backup ∧
    (set_throttle m v).mgr.m_doing_copy = m.m_doing_copy ∧
    (set_throttle m v).mgr.m_capture_error = m.m_capture_error ∧
    (set_throttle m v).mgr.m_mutex = m.m_mutex ∧
    (set_throttle m v).mgr.m_map = m.m_map ∧
    (set_throttle m v).calls = [] := by
  refine ⟨?_, rfl, rfl, rfl, rfl, rfl, rfl, rfl⟩
  show (run_ops (set_throttle m v).mgr steps).m_throttle = v
  rw [run_ops_throttle]
  rfl

end HotBackup
